import Mathlib

/-!
Verification development for the CloudPulse monitor repository.

The definitions below are shallow embeddings of the TypeScript source:
* `ClientError`, `shouldRetry`, `withRetry` embed the `ApiClient` retry
  machinery of `src/utils/api.ts`;
* `REQUEST_CONFIG` embeds the constants of `src/utils/constants.ts`;
* `getMetricStatus`, `getHealthStatus`, `transformMetricsResponse` embed
  `src/frontend/src/types/index.ts`;
* `refetchInterval` embeds the per-resource polling intervals of
  `src/frontend/src/hooks/useApi.ts`, and `buildLogsQueryParams` the query
  construction of its `useLogs` hook;
* `uptimeCheck` and `applyServiceUpdate` embed the `services` table CHECK
  constraint of `src/backend/init-db.sql`.

Asynchronous operations are embedded by passing an explicit script: the
list of outcomes the wrapped operation would produce on its successive
invocations.  `withRetry` consumes that script one attempt at a time and
records the attempts made and the backoff delays slept between them.
-/

/-- Classified client-side failures of `ApiClient`: `NetworkError` carries only
a message (timeout or connection failure, no HTTP status available);
`ApiError` carries a message and the HTTP status of a non-2xx response. -/
inductive ClientError : Type where
  | NetworkError : String → ClientError
  | ApiError : String → Nat → ClientError
deriving DecidableEq, Repr

/-- Embeds `ApiClient.shouldRetry`: retry every `NetworkError`; retry an
`ApiError` only when its status is at least 500; nothing else is retried. -/
def shouldRetry : ClientError → Bool
  | ClientError.NetworkError _ => true
  | ClientError.ApiError _ status => decide (500 ≤ status)

namespace REQUEST_CONFIG

/-- `REQUEST_CONFIG.TIMEOUT` from `constants.ts` (milliseconds). -/
def TIMEOUT : Nat := 10000

/-- `REQUEST_CONFIG.RETRY_ATTEMPTS` from `constants.ts`. -/
def RETRY_ATTEMPTS : Nat := 3

/-- `REQUEST_CONFIG.RETRY_DELAY` from `constants.ts` (milliseconds). -/
def RETRY_DELAY : Int := 1000

end REQUEST_CONFIG

/-- Observable trace of one `withRetry` run: the final settled outcome, the
total number of attempts made, and the backoff delays (in chronological
order) slept before each retry. -/
structure RetryTrace (α : Type) where
  result : Except ClientError α
  attempts : Nat
  delays : List Int
deriving Repr

/-- Embeds `ApiClient.withRetry`.  `script` lists the outcome of each
successive invocation of the wrapped operation; `retries` is the remaining
retry budget (the caller-supplied `retries`, defaulting to
`defaultRetries`).  On a failure, when budget remains and the error is
retryable, the code sleeps `baseDelay * (defaultRetries - retries + 1)`
milliseconds and recurses with `retries - 1`; otherwise the error is
rethrown unchanged.  Returns `none` only when the script is too short to
settle the run. -/
def withRetry (baseDelay : Int) (defaultRetries : Nat) :
    List (Except ClientError α) → Nat → Option (RetryTrace α)
  | [], _ => none
  | Except.ok a :: _, _ => some ⟨Except.ok a, 1, []⟩
  | Except.error e :: rest, retries =>
    if 0 < retries ∧ shouldRetry e = true then
      match withRetry baseDelay defaultRetries rest (retries - 1) with
      | none => none
      | some t =>
          some ⟨t.result, t.attempts + 1,
            baseDelay * ((defaultRetries : Int) - (retries : Int) + 1) :: t.delays⟩
    else
      some ⟨Except.error e, 1, []⟩

theorem withRetry_attempts_pos {α : Type} (baseDelay : Int) (defaultRetries : Nat) :
    ∀ (script : List (Except ClientError α)) (retries : Nat) (t : RetryTrace α),
      withRetry baseDelay defaultRetries script retries = some t → 1 ≤ t.attempts := by
  intro script
  induction script with
  | nil => intro retries t h; simp [withRetry] at h
  | cons o rest ih =>
    intro retries t h
    cases o with
    | ok a =>
      simp [withRetry] at h
      subst h
      exact le_rfl
    | error e =>
      by_cases hc : 0 < retries ∧ shouldRetry e = true
      · simp [withRetry, hc] at h
        cases hrec : withRetry baseDelay defaultRetries rest (retries - 1) with
        | none => rw [hrec] at h; simp at h
        | some t' =>
          rw [hrec] at h
          simp at h
          subst h
          show 1 ≤ t'.attempts + 1
          omega
      · simp [withRetry, hc] at h
        subst h
        exact le_rfl

theorem withRetry_attempts_le {α : Type} (baseDelay : Int) (defaultRetries : Nat) :
    ∀ (script : List (Except ClientError α)) (retries : Nat) (t : RetryTrace α),
      withRetry baseDelay defaultRetries script retries = some t →
      t.attempts ≤ retries + 1 := by
  intro script
  induction script with
  | nil => intro retries t h; simp [withRetry] at h
  | cons o rest ih =>
    intro retries t h
    cases o with
    | ok a =>
      simp [withRetry] at h
      subst h
      simp
    | error e =>
      by_cases hc : 0 < retries ∧ shouldRetry e = true
      · simp [withRetry, hc] at h
        cases hrec : withRetry baseDelay defaultRetries rest (retries - 1) with
        | none => rw [hrec] at h; simp at h
        | some t' =>
          rw [hrec] at h
          simp at h
          subst h
          have := ih (retries - 1) t' hrec
          show t'.attempts + 1 ≤ retries + 1
          omega
      · simp [withRetry, hc] at h
        subst h
        simp

theorem withRetry_result_getElem {α : Type} (baseDelay : Int) (defaultRetries : Nat) :
    ∀ (script : List (Except ClientError α)) (retries : Nat) (t : RetryTrace α),
      withRetry baseDelay defaultRetries script retries = some t →
      script[t.attempts - 1]? = some t.result := by
  intro script
  induction script with
  | nil => intro retries t h; simp [withRetry] at h
  | cons o rest ih =>
    intro retries t h
    cases o with
    | ok a =>
      simp [withRetry] at h
      subst h
      simp
    | error e =>
      by_cases hc : 0 < retries ∧ shouldRetry e = true
      · simp [withRetry, hc] at h
        cases hrec : withRetry baseDelay defaultRetries rest (retries - 1) with
        | none => rw [hrec] at h; simp at h
        | some t' =>
          rw [hrec] at h
          simp at h
          subst h
          have hpos := withRetry_attempts_pos baseDelay defaultRetries rest (retries - 1) t' hrec
          have hres := ih (retries - 1) t' hrec
          show (Except.error e :: rest)[t'.attempts + 1 - 1]? = some t'.result
          have h1 : t'.attempts + 1 - 1 = (t'.attempts - 1) + 1 := by omega
          rw [h1, List.getElem?_cons_succ]
          exact hres
      · simp [withRetry, hc] at h
        subst h
        simp

theorem withRetry_delays_len {α : Type} (baseDelay : Int) (defaultRetries : Nat) :
    ∀ (script : List (Except ClientError α)) (retries : Nat) (t : RetryTrace α),
      withRetry baseDelay defaultRetries script retries = some t →
      t.delays.length = t.attempts - 1 := by
  intro script
  induction script with
  | nil => intro retries t h; simp [withRetry] at h
  | cons o rest ih =>
    intro retries t h
    cases o with
    | ok a =>
      simp [withRetry] at h
      subst h
      rfl
    | error e =>
      by_cases hc : 0 < retries ∧ shouldRetry e = true
      · simp [withRetry, hc] at h
        cases hrec : withRetry baseDelay defaultRetries rest (retries - 1) with
        | none => rw [hrec] at h; simp at h
        | some t' =>
          rw [hrec] at h
          simp at h
          subst h
          have hpos := withRetry_attempts_pos baseDelay defaultRetries rest (retries - 1) t' hrec
          have hlen := ih (retries - 1) t' hrec
          show (baseDelay * _ :: t'.delays).length = t'.attempts + 1 - 1
          simp [hlen]
          omega
      · simp [withRetry, hc] at h
        subst h
        rfl

theorem withRetry_delays_getElem {α : Type} (baseDelay : Int) (defaultRetries : Nat) :
    ∀ (script : List (Except ClientError α)) (retries : Nat) (t : RetryTrace α),
      withRetry baseDelay defaultRetries script retries = some t →
      ∀ k : Nat, k < t.delays.length →
        t.delays[k]? =
          some (baseDelay * ((defaultRetries : Int) - (retries : Int) + (k : Int) + 1)) := by
  intro script
  induction script with
  | nil => intro retries t h; simp [withRetry] at h
  | cons o rest ih =>
    intro retries t h
    cases o with
    | ok a =>
      simp [withRetry] at h
      subst h
      intro k hk
      simp at hk
    | error e =>
      by_cases hc : 0 < retries ∧ shouldRetry e = true
      · simp [withRetry, hc] at h
        cases hrec : withRetry baseDelay defaultRetries rest (retries - 1) with
        | none => rw [hrec] at h; simp at h
        | some t' =>
          rw [hrec] at h
          simp at h
          subst h
          intro k hk
          match k with
          | 0 =>
            show (baseDelay * ((defaultRetries : Int) - (retries : Int) + 1) ::
                t'.delays)[0]? =
              some (baseDelay * ((defaultRetries : Int) - (retries : Int) + ((0 : Nat) : Int) + 1))
            norm_num
          | j + 1 =>
            have hk' : j < t'.delays.length := by
              have h2 : j + 1 <
                  (baseDelay * ((defaultRetries : Int) - (retries : Int) + 1) ::
                    t'.delays).length := hk
              simpa using h2
            have hj := ih (retries - 1) t' hrec j hk'
            have hr : 1 ≤ retries := hc.1
            show (baseDelay * ((defaultRetries : Int) - (retries : Int) + 1) ::
                t'.delays)[j + 1]? =
              some (baseDelay *
                ((defaultRetries : Int) - (retries : Int) + (((j + 1 : Nat)) : Int) + 1))
            rw [List.getElem?_cons_succ, hj]
            congr 1
            push_cast [Nat.cast_sub hr]
            ring
      · simp [withRetry, hc] at h
        subst h
        intro k hk
        simp at hk

/-- C1: a failed request is retried (the run makes a further attempt) if and
only if the failure is classified retryable by `shouldRetry`: always for a
`NetworkError`, for an `ApiError` exactly when its HTTP status is at least
500; a 4xx failure (such as a single 404) is never retried and propagates
immediately to the caller as the settled result of a single attempt. -/
theorem dataAccessClient_retries_iff_retryable :
    (∀ m : String, shouldRetry (ClientError.NetworkError m) = true)
    ∧ (∀ (m : String) (s : Nat),
        shouldRetry (ClientError.ApiError m s) = decide (500 ≤ s))
    ∧ (∀ (e : ClientError) (rest : List (Except ClientError Unit))
        (retries : Nat) (t : RetryTrace Unit), 0 < retries →
        withRetry REQUEST_CONFIG.RETRY_DELAY REQUEST_CONFIG.RETRY_ATTEMPTS
          (Except.error e :: rest) retries = some t →
        (1 < t.attempts ↔ shouldRetry e = true))
    ∧ (∀ (m : String) (s : Nat) (rest : List (Except ClientError Unit))
        (retries : Nat), 400 ≤ s → s < 500 →
        withRetry REQUEST_CONFIG.RETRY_DELAY REQUEST_CONFIG.RETRY_ATTEMPTS
          (Except.error (ClientError.ApiError m s) :: rest) retries =
          some ⟨Except.error (ClientError.ApiError m s), 1, []⟩) := by
  refine ⟨fun m => rfl, fun m s => rfl, ?_, ?_⟩
  · intro e rest retries t hr h
    by_cases hs : shouldRetry e = true
    · have hc : 0 < retries ∧ shouldRetry e = true := ⟨hr, hs⟩
      simp only [withRetry, if_pos hc] at h
      cases hrec : withRetry REQUEST_CONFIG.RETRY_DELAY REQUEST_CONFIG.RETRY_ATTEMPTS
          rest (retries - 1) with
      | none => rw [hrec] at h; simp at h
      | some t' =>
        rw [hrec] at h
        simp at h
        subst h
        have hpos := withRetry_attempts_pos REQUEST_CONFIG.RETRY_DELAY
          REQUEST_CONFIG.RETRY_ATTEMPTS rest (retries - 1) t' hrec
        constructor
        · intro _; exact hs
        · intro _
          show 1 < t'.attempts + 1
          omega
    · have hc : ¬ (0 < retries ∧ shouldRetry e = true) := fun hca => hs hca.2
      simp only [withRetry, if_neg hc] at h
      simp at h
      subst h
      constructor
      · intro h1
        exact absurd h1 (by simp)
      · intro hcon
        exact absurd hcon hs
  · intro m s rest retries h4 h5
    have hs : shouldRetry (ClientError.ApiError m s) = false := by
      simp [shouldRetry]
      omega
    have hc : ¬ (0 < retries ∧ shouldRetry (ClientError.ApiError m s) = true) := by
      intro hca
      rw [hs] at hca
      exact absurd hca.2 (by simp)
    simp only [withRetry, if_neg hc]

/-- Witness for C1 at concrete inputs: a network failure followed by a
success is retried (two attempts), and a single 404 settles after one
attempt with the error propagated unchanged. -/
theorem dataAccessClient_retries_iff_retryable_witness :
    ((1 < 2 ↔ shouldRetry (ClientError.NetworkError "timeout") = true)
    ∧ withRetry REQUEST_CONFIG.RETRY_DELAY REQUEST_CONFIG.RETRY_ATTEMPTS
        ([Except.error (ClientError.ApiError "Not Found" 404)] :
          List (Except ClientError Unit)) 3 =
        some ⟨Except.error (ClientError.ApiError "Not Found" 404), 1, []⟩) :=
  ⟨dataAccessClient_retries_iff_retryable.2.2.1 (ClientError.NetworkError "timeout")
      [Except.ok ()] 3 ⟨Except.ok (), 2, [1000]⟩ (by decide) (by rfl),
    dataAccessClient_retries_iff_retryable.2.2.2 "Not Found" 404 [] 3
      (by decide) (by decide)⟩

/-- Counterexample to C2 as stated: with the default configuration
(`RETRY_ATTEMPTS = 3` used both as the budget and as the default), a run in
which every attempt fails with a retryable 503 makes 4 attempts in total —
the initial attempt plus 3 retries — so a 4th attempt IS made, refuting
"at most 3 attempts in total" and "no 4th attempt is ever made". -/
theorem retry_budget_counterexample :
    (withRetry REQUEST_CONFIG.RETRY_DELAY REQUEST_CONFIG.RETRY_ATTEMPTS
        (List.replicate 4 (Except.error (ClientError.ApiError "Service Unavailable" 503)) :
          List (Except ClientError Unit)) REQUEST_CONFIG.RETRY_ATTEMPTS).map
      RetryTrace.attempts = some 4 ∧ ¬ (4 ≤ 3) := by
  constructor
  · rfl
  · decide

/-- C2 (amended): with the default configuration the `DataAccessClient`
performs at most 4 attempts in total (one initial attempt plus the
`RETRY_ATTEMPTS = 3` retry budget), and the run settles on exactly the
outcome of its final attempt — the last classified error is surfaced to
the caller unchanged; in particular no 5th attempt is ever made. -/
theorem retry_budget_amended :
    ∀ (script : List (Except ClientError Unit)) (t : RetryTrace Unit),
      withRetry REQUEST_CONFIG.RETRY_DELAY REQUEST_CONFIG.RETRY_ATTEMPTS script
        REQUEST_CONFIG.RETRY_ATTEMPTS = some t →
      t.attempts ≤ 4 ∧ script[t.attempts - 1]? = some t.result := by
  intro script t h
  refine ⟨?_, withRetry_result_getElem _ _ _ _ _ h⟩
  have := withRetry_attempts_le REQUEST_CONFIG.RETRY_DELAY REQUEST_CONFIG.RETRY_ATTEMPTS
    script REQUEST_CONFIG.RETRY_ATTEMPTS t h
  simpa [REQUEST_CONFIG.RETRY_ATTEMPTS] using this

/-- Witness for the amended C2 at the all-503 script: the run settles after
exactly 4 attempts on the unchanged 503 error. -/
theorem retry_budget_amended_witness :
    (RetryTrace.mk (α := Unit)
        (Except.error (ClientError.ApiError "Service Unavailable" 503)) 4
        [1000, 2000, 3000]).attempts ≤ 4 ∧
      (List.replicate 4 (Except.error (ClientError.ApiError "Service Unavailable" 503)) :
        List (Except ClientError Unit))[(RetryTrace.mk (α := Unit)
          (Except.error (ClientError.ApiError "Service Unavailable" 503)) 4
          [1000, 2000, 3000]).attempts - 1]? =
        some (RetryTrace.mk (α := Unit)
          (Except.error (ClientError.ApiError "Service Unavailable" 503)) 4
          [1000, 2000, 3000]).result :=
  retry_budget_amended
    (List.replicate 4 (Except.error (ClientError.ApiError "Service Unavailable" 503)))
    ⟨Except.error (ClientError.ApiError "Service Unavailable" 503), 4, [1000, 2000, 3000]⟩
    (by rfl)

/-- C6: in every retry sequence under the default configuration, the backoff
delay before the n-th retry (index `k = n - 1`) equals the base delay
`RETRY_DELAY` multiplied by the attempt number `n = k + 1`, never exceeds
3000 ms (the value reached at the last possible retry), and the delays are
strictly increasing across consecutive retries of the same request. -/
theorem backoff_linear_increasing :
    ∀ (script : List (Except ClientError Unit)) (t : RetryTrace Unit),
      withRetry REQUEST_CONFIG.RETRY_DELAY REQUEST_CONFIG.RETRY_ATTEMPTS script
        REQUEST_CONFIG.RETRY_ATTEMPTS = some t →
      (∀ k : Nat, k < t.delays.length →
        t.delays[k]? = some (REQUEST_CONFIG.RETRY_DELAY * ((k : Int) + 1)))
      ∧ (∀ d ∈ t.delays, d ≤ 3000)
      ∧ (∀ (j k : Nat) (dj dk : Int), j < k →
          t.delays[j]? = some dj → t.delays[k]? = some dk → dj < dk) := by
  intro script t h
  have hget : ∀ k : Nat, k < t.delays.length →
      t.delays[k]? = some (REQUEST_CONFIG.RETRY_DELAY * ((k : Int) + 1)) := by
    intro k hk
    have := withRetry_delays_getElem REQUEST_CONFIG.RETRY_DELAY
      REQUEST_CONFIG.RETRY_ATTEMPTS script REQUEST_CONFIG.RETRY_ATTEMPTS t h k hk
    rw [this]
    congr 1
    ring
  have hlen4 : t.delays.length ≤ 3 := by
    have h1 := withRetry_delays_len REQUEST_CONFIG.RETRY_DELAY
      REQUEST_CONFIG.RETRY_ATTEMPTS script REQUEST_CONFIG.RETRY_ATTEMPTS t h
    have h2 := withRetry_attempts_le REQUEST_CONFIG.RETRY_DELAY
      REQUEST_CONFIG.RETRY_ATTEMPTS script REQUEST_CONFIG.RETRY_ATTEMPTS t h
    simp [REQUEST_CONFIG.RETRY_ATTEMPTS] at h2
    omega
  refine ⟨hget, ?_, ?_⟩
  · intro d hd
    obtain ⟨k, hk⟩ := List.mem_iff_getElem?.mp hd
    have hklen : k < t.delays.length := by
      rcases List.getElem?_eq_some_iff.mp hk with ⟨hlt, _⟩
      exact hlt
    have := hget k hklen
    rw [this] at hk
    have hdk : d = REQUEST_CONFIG.RETRY_DELAY * ((k : Int) + 1) := by
      injection hk.symm
    have hk3 : (k : Int) ≤ 2 := by
      have : k ≤ 2 := by omega
      exact_mod_cast this
    rw [hdk]
    simp only [REQUEST_CONFIG.RETRY_DELAY]
    omega
  · intro j k dj dk hjk hj hk
    have hklen : k < t.delays.length := by
      rcases List.getElem?_eq_some_iff.mp hk with ⟨hlt, _⟩
      exact hlt
    have hjlen : j < t.delays.length := lt_trans hjk hklen
    rw [hget j hjlen] at hj
    rw [hget k hklen] at hk
    have hdj : dj = REQUEST_CONFIG.RETRY_DELAY * ((j : Int) + 1) := by injection hj.symm
    have hdk : dk = REQUEST_CONFIG.RETRY_DELAY * ((k : Int) + 1) := by injection hk.symm
    have hjk' : (j : Int) < (k : Int) := by exact_mod_cast hjk
    rw [hdj, hdk]
    simp only [REQUEST_CONFIG.RETRY_DELAY]
    omega

/-- Witness for C6 at the script of two 503 failures followed by a success:
the run makes exactly 2 retries then succeeds, with delays 1000 then 2000. -/
theorem backoff_linear_increasing_witness :
    (∀ k : Nat, k < (RetryTrace.mk (α := Unit) (Except.ok ()) 3 [1000, 2000]).delays.length →
      (RetryTrace.mk (α := Unit) (Except.ok ()) 3 [1000, 2000]).delays[k]? =
        some (REQUEST_CONFIG.RETRY_DELAY * ((k : Int) + 1)))
    ∧ (∀ d ∈ (RetryTrace.mk (α := Unit) (Except.ok ()) 3 [1000, 2000]).delays, d ≤ 3000)
    ∧ (∀ (j k : Nat) (dj dk : Int), j < k →
        (RetryTrace.mk (α := Unit) (Except.ok ()) 3 [1000, 2000]).delays[j]? = some dj →
        (RetryTrace.mk (α := Unit) (Except.ok ()) 3 [1000, 2000]).delays[k]? = some dk →
        dj < dk) :=
  backoff_linear_increasing
    [Except.error (ClientError.ApiError "Service Unavailable" 503),
      Except.error (ClientError.ApiError "Service Unavailable" 503), Except.ok ()]
    ⟨Except.ok (), 3, [1000, 2000]⟩ (by rfl)

/-- C9: the backoff delay is computed from the client's default retry count
(`RETRY_ATTEMPTS = 3`), not the caller-supplied per-request `retries`
parameter: for any caller-supplied `retries = n > 3`, each of the first
`n - 3` retries is scheduled with a zero or negative delay, while under the
default configuration the delays before the retries are 1, 2 and 3 times
the base delay. -/
theorem backoff_uses_default_retries :
    ∀ (n : Nat) (script : List (Except ClientError Unit)) (t : RetryTrace Unit),
      REQUEST_CONFIG.RETRY_ATTEMPTS < n →
      withRetry REQUEST_CONFIG.RETRY_DELAY REQUEST_CONFIG.RETRY_ATTEMPTS script n =
        some t →
      (∀ (k : Nat) (d : Int), k + REQUEST_CONFIG.RETRY_ATTEMPTS < n →
        t.delays[k]? = some d → d ≤ 0)
    ∧ (∀ (script' : List (Except ClientError Unit)) (t' : RetryTrace Unit),
        withRetry REQUEST_CONFIG.RETRY_DELAY REQUEST_CONFIG.RETRY_ATTEMPTS script'
          REQUEST_CONFIG.RETRY_ATTEMPTS = some t' →
        ∀ k : Nat, k < t'.delays.length →
          t'.delays[k]? = some (REQUEST_CONFIG.RETRY_DELAY * ((k : Int) + 1))) := by
  intro n script t hn h
  constructor
  · intro k d hkn hk
    have hklen : k < t.delays.length := by
      rcases List.getElem?_eq_some_iff.mp hk with ⟨hlt, _⟩
      exact hlt
    have hget := withRetry_delays_getElem REQUEST_CONFIG.RETRY_DELAY
      REQUEST_CONFIG.RETRY_ATTEMPTS script n t h k hklen
    rw [hget] at hk
    have hd : d = REQUEST_CONFIG.RETRY_DELAY *
        ((REQUEST_CONFIG.RETRY_ATTEMPTS : Int) - (n : Int) + (k : Int) + 1) := by
      injection hk.symm
    simp only [REQUEST_CONFIG.RETRY_ATTEMPTS] at hkn
    have hcast : (k : Int) + 3 < (n : Int) := by exact_mod_cast hkn
    rw [hd]
    simp only [REQUEST_CONFIG.RETRY_DELAY, REQUEST_CONFIG.RETRY_ATTEMPTS]
    omega
  · intro script' t' h' k hk
    have := withRetry_delays_getElem REQUEST_CONFIG.RETRY_DELAY
      REQUEST_CONFIG.RETRY_ATTEMPTS script' REQUEST_CONFIG.RETRY_ATTEMPTS t' h' k hk
    rw [this]
    congr 1
    ring

/-- Witness for C9 at caller-supplied `retries = 5` over six network
failures: the first two retries get delays -1000 and 0 (no positive
backoff), and the default-configuration run over two 503s and a success
gets delays 1000 and 2000. -/
theorem backoff_uses_default_retries_witness :
    ((-1000 : Int) ≤ 0)
    ∧ (RetryTrace.mk (α := Unit) (Except.ok ()) 3 [1000, 2000]).delays[0]? =
        some (REQUEST_CONFIG.RETRY_DELAY * ((0 : Nat) + 1 : Int)) :=
  ⟨(backoff_uses_default_retries 5
        (List.replicate 6 (Except.error (ClientError.NetworkError "conn")))
        ⟨Except.error (ClientError.NetworkError "conn"), 6, [-1000, 0, 1000, 2000, 3000]⟩
        (by decide) (by rfl)).1 0 (-1000) (by decide) (by rfl),
    (backoff_uses_default_retries 5
        (List.replicate 6 (Except.error (ClientError.NetworkError "conn")))
        ⟨Except.error (ClientError.NetworkError "conn"), 6, [-1000, 0, 1000, 2000, 3000]⟩
        (by decide) (by rfl)).2
      [Except.error (ClientError.ApiError "Service Unavailable" 503),
        Except.error (ClientError.ApiError "Service Unavailable" 503), Except.ok ()]
      ⟨Except.ok (), 3, [1000, 2000]⟩ (by rfl) 0 (by decide)⟩

/-- The health status values of `types/index.ts`:
`'healthy' | 'warning' | 'critical'`. -/
inductive HealthStatus : Type where
  | healthy : HealthStatus
  | warning : HealthStatus
  | critical : HealthStatus
deriving DecidableEq, Repr

/-- The trend values of `types/index.ts`: `'up' | 'down' | 'stable'`. -/
inductive Trend : Type where
  | up : Trend
  | down : Trend
  | stable : Trend
deriving DecidableEq, Repr

/-- Embeds the `MetricsApiResponse` interface of `types/index.ts`. -/
structure MetricsApiResponse where
  cpu_usage : ℚ
  memory_usage : ℚ
  network_traffic : ℚ
  container_count : ℚ
  overall_health : ℚ
  timestamp : String
deriving DecidableEq, Repr

/-- Embeds the `Metric` interface of `types/index.ts`. -/
structure Metric where
  name : String
  value : ℚ
  unit : String
  status : HealthStatus
  trend : Trend
  timestamp : String
deriving DecidableEq, Repr

/-- Embeds `getMetricStatus` of `types/index.ts`: critical above the
critical threshold, warning above the warning threshold, healthy below. -/
def getMetricStatus (value criticalThreshold warningThreshold : ℚ) : HealthStatus :=
  if value > criticalThreshold then HealthStatus.critical
  else if value > warningThreshold then HealthStatus.warning
  else HealthStatus.healthy

/-- Embeds `getHealthStatus` of `types/index.ts`: healthy above 90, warning
above 70, critical below — higher values are better. -/
def getHealthStatus (value : ℚ) : HealthStatus :=
  if value > 90 then HealthStatus.healthy
  else if value > 70 then HealthStatus.warning
  else HealthStatus.critical

/-- Embeds `transformMetricsResponse` of `types/index.ts`: builds the five
UI metrics from one API response, with the literal thresholds, units and
trends of the source. -/
def transformMetricsResponse (apiResponse : MetricsApiResponse) : List Metric :=
  [ { name := "CPU Usage", value := apiResponse.cpu_usage, unit := "%",
      status := getMetricStatus apiResponse.cpu_usage 80 60,
      trend := Trend.stable, timestamp := apiResponse.timestamp },
    { name := "Memory Usage", value := apiResponse.memory_usage, unit := "%",
      status := getMetricStatus apiResponse.memory_usage 85 70,
      trend := Trend.stable, timestamp := apiResponse.timestamp },
    { name := "Network Traffic", value := apiResponse.network_traffic, unit := "MB/s",
      status := if apiResponse.network_traffic > 1000 then HealthStatus.warning
        else HealthStatus.healthy,
      trend := Trend.stable, timestamp := apiResponse.timestamp },
    { name := "Container Count", value := apiResponse.container_count, unit := "containers",
      status := HealthStatus.healthy,
      trend := Trend.stable, timestamp := apiResponse.timestamp },
    { name := "Overall Health", value := apiResponse.overall_health, unit := "%",
      status := getHealthStatus apiResponse.overall_health,
      trend := Trend.stable, timestamp := apiResponse.timestamp } ]

/-- Numeric severity of a health status under the strict ordering
critical > warning > healthy; a strictly smaller severity is a strictly
better status. -/
def severity : HealthStatus → Nat
  | HealthStatus.healthy => 0
  | HealthStatus.warning => 1
  | HealthStatus.critical => 2

/-- Counterexample to C3 as stated: for the consecutive responses with CPU
usage 10 and then 90 — an increase far beyond any small epsilon — the CPU
metric of the second transformed response still reports trend `stable`,
not `up`: `transformMetricsResponse` assigns every metric the constant
trend `stable` and never compares against a previous value. -/
theorem trend_comparison_counterexample :
    ((transformMetricsResponse ⟨10, 0, 0, 0, 0, "t1"⟩)[0]?).map Metric.value =
      some 10
    ∧ ((transformMetricsResponse ⟨90, 0, 0, 0, 0, "t2"⟩)[0]?).map Metric.value =
      some 90
    ∧ ((transformMetricsResponse ⟨90, 0, 0, 0, 0, "t2"⟩)[0]?).map Metric.trend =
      some Trend.stable
    ∧ Trend.stable ≠ Trend.up
    ∧ (10 : ℚ) + 1 < 90 := by
  refine ⟨rfl, rfl, rfl, by decide, by norm_num⟩

/-- C3 (amended): every metric produced by `transformMetricsResponse`
reports the constant trend `stable`, regardless of the current or any
previous value; no comparison to the previous value takes place. -/
theorem trend_always_stable :
    ∀ (r : MetricsApiResponse) (m : Metric),
      m ∈ transformMetricsResponse r → m.trend = Trend.stable := by
  intro r m hm
  simp [transformMetricsResponse] at hm
  rcases hm with h | h | h | h | h <;> subst h <;> rfl

/-- Witness for the amended C3: the CPU metric of a concrete transformed
response has trend `stable`. -/
theorem trend_always_stable_witness :
    ({ name := "CPU Usage", value := (10 : ℚ), unit := "%",
        status := getMetricStatus 10 80 60, trend := Trend.stable,
        timestamp := "t1" } : Metric).trend = Trend.stable :=
  trend_always_stable ⟨10, 0, 0, 0, 0, "t1"⟩
    { name := "CPU Usage", value := (10 : ℚ), unit := "%",
      status := getMetricStatus 10 80 60, trend := Trend.stable,
      timestamp := "t1" } (by simp [transformMetricsResponse, getMetricStatus])

/-- Counterexample to C4 as stated: for the Overall Health metric produced
by `transformMetricsResponse`, raising the value from 50 to 95 improves the
derived status from `critical` to `healthy` — strictly better under the
ordering critical > warning > healthy — so the status is not monotone in
the degrading direction for every metric. -/
theorem status_monotone_counterexample :
    ((transformMetricsResponse ⟨0, 0, 0, 0, 50, "t"⟩)[4]?).map Metric.status =
      some HealthStatus.critical
    ∧ ((transformMetricsResponse ⟨0, 0, 0, 0, 95, "t"⟩)[4]?).map Metric.status =
      some HealthStatus.healthy
    ∧ (50 : ℚ) ≤ 95
    ∧ severity HealthStatus.healthy < severity HealthStatus.critical := by
  refine ⟨by decide, by decide, by norm_num, by decide⟩

theorem getMetricStatus_severity_mono (c w v1 v2 : ℚ) (h : v1 ≤ v2) :
    severity (getMetricStatus v1 c w) ≤ severity (getMetricStatus v2 c w) := by
  simp only [getMetricStatus]
  split_ifs <;> simp [severity] <;> linarith

theorem getHealthStatus_severity_anti (v1 v2 : ℚ) (h : v1 ≤ v2) :
    severity (getHealthStatus v2) ≤ severity (getHealthStatus v1) := by
  simp only [getHealthStatus]
  split_ifs <;> simp [severity] <;> linarith

/-- C4 (amended): the statuses produced by `transformMetricsResponse` are
pure functions of the metric's value, and they are monotone in the
degrading direction (raising the value never improves the status) for the
CPU Usage, Memory Usage, Network Traffic and Container Count metrics; for
the Overall Health metric the direction is reversed — raising the value
never degrades the status. -/
theorem status_monotone_amended :
    (∀ r : MetricsApiResponse,
      (transformMetricsResponse r).map Metric.status =
        [getMetricStatus r.cpu_usage 80 60,
          getMetricStatus r.memory_usage 85 70,
          if r.network_traffic > 1000 then HealthStatus.warning else HealthStatus.healthy,
          HealthStatus.healthy,
          getHealthStatus r.overall_health])
    ∧ (∀ v1 v2 : ℚ, v1 ≤ v2 →
        severity (getMetricStatus v1 80 60) ≤ severity (getMetricStatus v2 80 60)
        ∧ severity (getMetricStatus v1 85 70) ≤ severity (getMetricStatus v2 85 70)
        ∧ severity (if v1 > 1000 then HealthStatus.warning else HealthStatus.healthy) ≤
            severity (if v2 > 1000 then HealthStatus.warning else HealthStatus.healthy)
        ∧ severity (getHealthStatus v2) ≤ severity (getHealthStatus v1)) := by
  constructor
  · intro r
    rfl
  · intro v1 v2 h
    refine ⟨getMetricStatus_severity_mono 80 60 v1 v2 h,
      getMetricStatus_severity_mono 85 70 v1 v2 h, ?_,
      getHealthStatus_severity_anti v1 v2 h⟩
    split_ifs with h1 h2
    · simp [severity]
    · exact absurd (by linarith : v2 > 1000) h2
    · simp [severity]
    · simp [severity]

/-- Witness for the amended C4 at values 59 ≤ 81: every monotonicity
conjunct holds there. -/
theorem status_monotone_amended_witness :
    severity (getMetricStatus 59 80 60) ≤ severity (getMetricStatus 81 80 60)
    ∧ severity (getMetricStatus 59 85 70) ≤ severity (getMetricStatus 81 85 70)
    ∧ severity (if (59 : ℚ) > 1000 then HealthStatus.warning else HealthStatus.healthy) ≤
        severity (if (81 : ℚ) > 1000 then HealthStatus.warning else HealthStatus.healthy)
    ∧ severity (getHealthStatus 81) ≤ severity (getHealthStatus 59) :=
  status_monotone_amended.2 59 81 (by norm_num)

/-- C5: for the CPU Usage metric — thresholds warning 60, critical 80 —
the derived status is a pure function of the CPU value alone, and value 59
yields `healthy`, 61 yields `warning`, 81 yields `critical`. -/
theorem cpu_status_thresholds :
    ((transformMetricsResponse ⟨59, 0, 0, 0, 0, "t"⟩)[0]?).map Metric.status =
      some HealthStatus.healthy
    ∧ ((transformMetricsResponse ⟨61, 0, 0, 0, 0, "t"⟩)[0]?).map Metric.status =
      some HealthStatus.warning
    ∧ ((transformMetricsResponse ⟨81, 0, 0, 0, 0, "t"⟩)[0]?).map Metric.status =
      some HealthStatus.critical
    ∧ (∀ (r1 r2 : MetricsApiResponse), r1.cpu_usage = r2.cpu_usage →
        ((transformMetricsResponse r1)[0]?).map Metric.status =
          ((transformMetricsResponse r2)[0]?).map Metric.status) := by
  refine ⟨by decide, by decide, by decide, ?_⟩
  intro r1 r2 hcpu
  simp [transformMetricsResponse, hcpu]

/-- Witness for C5: two responses sharing CPU value 59 but differing in
every other field give the same CPU metric status. -/
theorem cpu_status_thresholds_witness :
    ((transformMetricsResponse ⟨59, 1, 2, 3, 4, "a"⟩)[0]?).map Metric.status =
      ((transformMetricsResponse ⟨59, 5, 6, 7, 8, "b"⟩)[0]?).map Metric.status :=
  cpu_status_thresholds.2.2.2 ⟨59, 1, 2, 3, 4, "a"⟩ ⟨59, 5, 6, 7, 8, "b"⟩ (by norm_num)

/-- The service status values of the `services` table CHECK constraint in
`init-db.sql`: `status IN ('online', 'degraded', 'offline')`. -/
inductive ServiceStatus : Type where
  | online : ServiceStatus
  | degraded : ServiceStatus
  | offline : ServiceStatus
deriving DecidableEq, Repr

/-- A row of the `services` table of `init-db.sql` (the fields the claims
are about). -/
structure ServiceRow where
  id : String
  name : String
  status : ServiceStatus
  uptime : ℚ
deriving DecidableEq, Repr

/-- Embeds the `services` table constraint of `init-db.sql`:
`CHECK (uptime >= 0.0 AND uptime <= 100.0)`. -/
def uptimeCheck (u : ℚ) : Bool :=
  decide (0 ≤ u) && decide (u ≤ 100)

/-- Modelled from the spec: the `ServiceHealthSimulator` that performs
status transitions and uptime adjustments is not under `src/` (only the
database schema is), so a write is modelled as an arbitrary proposed
(status, uptime) pair; the database applies it only when the
`services`-table CHECK constraint of `init-db.sql` accepts the new uptime,
and rejects the statement — leaving the stored row unchanged — otherwise. -/
def applyServiceUpdate (row : ServiceRow) (newStatus : ServiceStatus)
    (newUptime : ℚ) : ServiceRow :=
  if uptimeCheck newUptime then
    { row with status := newStatus, uptime := newUptime }
  else row

/-- A sequence of proposed service updates applied in order through the
CHECK constraint. -/
def runServiceUpdates (row : ServiceRow) (updates : List (ServiceStatus × ℚ)) :
    ServiceRow :=
  updates.foldl (fun acc u => applyServiceUpdate acc u.1 u.2) row

/-- The seed rows inserted into the `services` table by `init-db.sql`. -/
def initialServices : List ServiceRow :=
  [ ⟨"api-gateway", "API Gateway", ServiceStatus.online, 99.98⟩,
    ⟨"user-service", "User Service", ServiceStatus.online, 99.95⟩,
    ⟨"payment-service", "Payment Service", ServiceStatus.online, 99.87⟩,
    ⟨"notification-service", "Notification Service", ServiceStatus.degraded, 98.45⟩,
    ⟨"analytics-service", "Analytics Service", ServiceStatus.online, 99.92⟩,
    ⟨"file-storage", "File Storage", ServiceStatus.online, 99.99⟩ ]

theorem applyServiceUpdate_uptime_range (row : ServiceRow)
    (newStatus : ServiceStatus) (newUptime : ℚ)
    (h0 : 0 ≤ row.uptime) (h1 : row.uptime ≤ 100) :
    0 ≤ (applyServiceUpdate row newStatus newUptime).uptime
    ∧ (applyServiceUpdate row newStatus newUptime).uptime ≤ 100 := by
  unfold applyServiceUpdate uptimeCheck
  split_ifs with h
  · simp only [Bool.and_eq_true, decide_eq_true_eq] at h
    exact h
  · exact ⟨h0, h1⟩

/-- C7: every seeded `services` row has uptime within [0, 100], and for
every row whose stored uptime is within [0, 100], after any sequence of
proposed status transitions and uptime adjustments filtered by the CHECK
constraint, the stored uptime remains within the closed interval
[0, 100]. -/
theorem uptime_in_range :
    (∀ s ∈ initialServices, 0 ≤ s.uptime ∧ s.uptime ≤ 100)
    ∧ (∀ (row : ServiceRow) (updates : List (ServiceStatus × ℚ)),
        0 ≤ row.uptime → row.uptime ≤ 100 →
        0 ≤ (runServiceUpdates row updates).uptime
        ∧ (runServiceUpdates row updates).uptime ≤ 100) := by
  constructor
  · intro s hs
    simp [initialServices] at hs
    rcases hs with h | h | h | h | h | h <;> subst h <;> constructor <;> norm_num
  · intro row updates
    induction updates generalizing row with
    | nil => intro h0 h1; exact ⟨h0, h1⟩
    | cons u us ih =>
      intro h0 h1
      have hstep := applyServiceUpdate_uptime_range row u.1 u.2 h0 h1
      have hrun : runServiceUpdates row (u :: us) =
          runServiceUpdates (applyServiceUpdate row u.1 u.2) us := rfl
      rw [hrun]
      exact ih (applyServiceUpdate row u.1 u.2) hstep.1 hstep.2

/-- Witness for C7: starting from the seeded api-gateway row, an update
attempting uptime 150 (rejected by the CHECK) followed by an accepted
update to 42 leaves the stored uptime within [0, 100]. -/
theorem uptime_in_range_witness :
    0 ≤ (runServiceUpdates ⟨"api-gateway", "API Gateway", ServiceStatus.online, 99.98⟩
        [(ServiceStatus.offline, 150), (ServiceStatus.degraded, 42)]).uptime
    ∧ (runServiceUpdates ⟨"api-gateway", "API Gateway", ServiceStatus.online, 99.98⟩
        [(ServiceStatus.offline, 150), (ServiceStatus.degraded, 42)]).uptime ≤ 100 :=
  uptime_in_range.2 ⟨"api-gateway", "API Gateway", ServiceStatus.online, 99.98⟩
    [(ServiceStatus.offline, 150), (ServiceStatus.degraded, 42)]
    (by norm_num) (by norm_num)

/-- The logical resources polled by the hooks of `useApi.ts`. -/
inductive Resource : Type where
  | metrics : Resource
  | services : Resource
  | logs : Resource
  | status : Resource
deriving DecidableEq, Repr

/-- Embeds the `refetchInterval` of each hook in `useApi.ts`: `useMetrics`
5000 ms, `useServices` 10000 ms, `useLogs` 15000 ms, `useSystemStatus`
30000 ms. -/
def refetchInterval : Resource → Nat
  | Resource.metrics => 5000
  | Resource.services => 10000
  | Resource.logs => 15000
  | Resource.status => 30000

/-- C8: among the polled resources, the metrics resource has the strictly
smallest refresh interval and the status resource the strictly largest. -/
theorem refetch_intervals_ordered :
    (∀ r : Resource, r ≠ Resource.metrics →
      refetchInterval Resource.metrics < refetchInterval r)
    ∧ (∀ r : Resource, r ≠ Resource.status →
      refetchInterval r < refetchInterval Resource.status) := by
  constructor <;> intro r hr <;> cases r <;>
    first
      | exact absurd rfl hr
      | decide

/-- Witness for C8 at the services resource: metrics refreshes strictly
faster and status strictly slower than services. -/
theorem refetch_intervals_ordered_witness :
    refetchInterval Resource.metrics < refetchInterval Resource.services
    ∧ refetchInterval Resource.services < refetchInterval Resource.status :=
  ⟨refetch_intervals_ordered.1 Resource.services (by decide),
    refetch_intervals_ordered.2 Resource.services (by decide)⟩

/-- Embeds the `LogsParams` interface of `useApi.ts`: every field is
optional (`limit?: number; level?: string; service?: string;
offset?: number`); the numeric fields are modelled as integers, so
negative caller-supplied values are representable. -/
structure LogsParams where
  limit : Option Int
  level : Option String
  service : Option String
  offset : Option Int
deriving DecidableEq, Repr

/-- One numeric append of `useLogs`: `if (params.x)
queryParams.append(key, params.x.toString())` — a number is truthy exactly
when it is present and nonzero, so negative values are appended too. -/
def intParamSegment (key : String) : Option Int → List (String × String)
  | some n => if n ≠ 0 then [(key, toString n)] else []
  | none => []

/-- One string append of `useLogs`: `if (params.x)
queryParams.append(key, params.x)` — a string is truthy exactly when it is
present and nonempty. -/
def strParamSegment (key : String) : Option String → List (String × String)
  | some s => if s ≠ "" then [(key, s)] else []
  | none => []

/-- Embeds the `URLSearchParams` construction of `useLogs` in `useApi.ts`:
the four appends in source order — limit, level, service, offset — each
guarded by JavaScript truthiness of the corresponding parameter. -/
def buildLogsQueryParams (params : LogsParams) : List (String × String) :=
  intParamSegment "limit" params.limit ++ strParamSegment "level" params.level ++
    strParamSegment "service" params.service ++ intParamSegment "offset" params.offset

theorem mem_intParamSegment (key : String) (o : Option Int) (k v : String) :
    (k, v) ∈ intParamSegment key o ↔
      k = key ∧ ∃ n : Int, o = some n ∧ n ≠ 0 ∧ v = toString n := by
  cases o with
  | none => simp [intParamSegment]
  | some n =>
    by_cases h : n = 0
    · simp [intParamSegment, h]
    · simp [intParamSegment, h]

theorem mem_strParamSegment (key : String) (o : Option String) (k v : String) :
    (k, v) ∈ strParamSegment key o ↔
      k = key ∧ ∃ s : String, o = some s ∧ s ≠ "" ∧ v = s := by
  cases o with
  | none => simp [strParamSegment]
  | some s =>
    by_cases h : s = ""
    · simp [strParamSegment, h]
    · simp [strParamSegment, h]

/-- Counterexample to C10 as stated: a caller-supplied limit of -1 is
truthy in JavaScript, so `useLogs` appends it to the query — the pair
("limit", "-1") appears in the request parameters although -1 is not
strictly positive, refuting "only strictly positive limits and offsets
... appear in the request URL". -/
theorem logs_params_counterexample :
    ("limit", toString (-1 : Int)) ∈
      buildLogsQueryParams ⟨some (-1), none, none, none⟩
    ∧ ¬ (0 < (-1 : Int)) := by
  refine ⟨by decide, by decide⟩

/-- C10 (amended): in the `useLogs` hook, a falsy parameter — `limit = 0`,
`offset = 0`, or an empty-string level or service filter — is omitted from
the request query parameters entirely, while absent parameters are
likewise omitted; a key appears in the query exactly when its value is
present and truthy: nonzero (positive or negative) for the numeric limit
and offset, nonempty for the level and service filters. -/
theorem logs_falsy_params_omitted :
    ∀ p : LogsParams,
      ((∃ v, ("limit", v) ∈ buildLogsQueryParams p) ↔
        ∃ n : Int, p.limit = some n ∧ n ≠ 0)
      ∧ ((∃ v, ("level", v) ∈ buildLogsQueryParams p) ↔
        ∃ s : String, p.level = some s ∧ s ≠ "")
      ∧ ((∃ v, ("service", v) ∈ buildLogsQueryParams p) ↔
        ∃ s : String, p.service = some s ∧ s ≠ "")
      ∧ ((∃ v, ("offset", v) ∈ buildLogsQueryParams p) ↔
        ∃ n : Int, p.offset = some n ∧ n ≠ 0)
      ∧ buildLogsQueryParams ⟨some 0, some "", some "", some 0⟩ = [] := by
  intro p
  refine ⟨?_, ?_, ?_, ?_, by decide⟩
  · constructor
    · rintro ⟨v, hv⟩
      simp only [buildLogsQueryParams, List.mem_append, mem_intParamSegment,
        mem_strParamSegment] at hv
      rcases hv with ((⟨_, n, hn, hn0, _⟩ | h) | h) | h
      · exact ⟨n, hn, hn0⟩
      · exact absurd h.1 (by decide)
      · exact absurd h.1 (by decide)
      · exact absurd h.1 (by decide)
    · rintro ⟨n, hn, hn0⟩
      refine ⟨toString n, ?_⟩
      simp only [buildLogsQueryParams, List.mem_append, mem_intParamSegment,
        mem_strParamSegment]
      exact Or.inl (Or.inl (Or.inl ⟨trivial, n, hn, hn0, rfl⟩))
  · constructor
    · rintro ⟨v, hv⟩
      simp only [buildLogsQueryParams, List.mem_append, mem_intParamSegment,
        mem_strParamSegment] at hv
      rcases hv with ((h | ⟨_, s, hs, hs0, _⟩) | h) | h
      · exact absurd h.1 (by decide)
      · exact ⟨s, hs, hs0⟩
      · exact absurd h.1 (by decide)
      · exact absurd h.1 (by decide)
    · rintro ⟨s, hs, hs0⟩
      refine ⟨s, ?_⟩
      simp only [buildLogsQueryParams, List.mem_append, mem_intParamSegment,
        mem_strParamSegment]
      exact Or.inl (Or.inl (Or.inr ⟨trivial, s, hs, hs0, rfl⟩))
  · constructor
    · rintro ⟨v, hv⟩
      simp only [buildLogsQueryParams, List.mem_append, mem_intParamSegment,
        mem_strParamSegment] at hv
      rcases hv with ((h | h) | ⟨_, s, hs, hs0, _⟩) | h
      · exact absurd h.1 (by decide)
      · exact absurd h.1 (by decide)
      · exact ⟨s, hs, hs0⟩
      · exact absurd h.1 (by decide)
    · rintro ⟨s, hs, hs0⟩
      refine ⟨s, ?_⟩
      simp only [buildLogsQueryParams, List.mem_append, mem_intParamSegment,
        mem_strParamSegment]
      exact Or.inl (Or.inr ⟨trivial, s, hs, hs0, rfl⟩)
  · constructor
    · rintro ⟨v, hv⟩
      simp only [buildLogsQueryParams, List.mem_append, mem_intParamSegment,
        mem_strParamSegment] at hv
      rcases hv with ((h | h) | h) | ⟨_, n, hn, hn0, _⟩
      · exact absurd h.1 (by decide)
      · exact absurd h.1 (by decide)
      · exact absurd h.1 (by decide)
      · exact ⟨n, hn, hn0⟩
    · rintro ⟨n, hn, hn0⟩
      refine ⟨toString n, ?_⟩
      simp only [buildLogsQueryParams, List.mem_append, mem_intParamSegment,
        mem_strParamSegment]
      exact Or.inr ⟨trivial, n, hn, hn0, rfl⟩

/-- Witness for the amended C10: the all-falsy parameters — explicit zero
limit and offset and empty level and service filters — produce an empty
query. -/
theorem logs_falsy_params_omitted_witness :
    buildLogsQueryParams ⟨some 0, some "", some "", some 0⟩ = [] :=
  (logs_falsy_params_omitted ⟨some 0, some "", some "", some 0⟩).2.2.2.2
